import Mathlib

/-!
Verification of the scroll-lock lifecycle manager and booking-session
coordinator of the kisesa-express-web repository.

The coordinator is `handleSubmit` in `src/components/SearchForm.js`, together
with `validateForm`, the `onClose` closure handed to the booking widget, and
the unmount-cleanup effect.  The `SafariYetuScrollManager` class lives in
`src/utils/safariYetuScrollManager.js`, which is imported by `SearchForm.js`
but is not part of the available sources; its operations (`createInstance`,
`disableScroll`, `enableScroll`, `cleanup`, `openBookingDialog` and the
presence monitor) are modelled from the specification, §4.1 and §4.2 step 4.

The embedding is a functional state-passing model: React state setters become
field updates on a `World` record, the mutable `scrollManagerRef` becomes an
`Option ScrollLockManager` field, and replaced manager instances are kept in a
ghost `retired` list so that global properties ("the count of Locked managers
never exceeds 1") can be stated.  Translation keys (the `t(...)` calls) are
modelled as the key strings themselves.
-/

/-- The two scroll states of a manager instance (spec §3, ScrollLockState). -/
inductive LockState where
  | Unlocked
  | Locked
deriving DecidableEq, Repr

/-- Modelled from the spec: `SafariYetuScrollManager` is defined in
`src/utils/safariYetuScrollManager.js`, which is not among the available
sources.  Per spec §4.1 a manager instance carries its scroll state and a
permanent inert (disposed) flag set by `cleanup()`. -/
structure ScrollLockManager where
  state : LockState
  inert : Bool
deriving DecidableEq, Repr

/-- Modelled from the spec (§4.1): `createInstance()` returns a new manager in
`Unlocked` state; construction has no side effects on the document. -/
def createInstance : ScrollLockManager := ⟨LockState.Unlocked, false⟩

/-- Modelled from the spec (§4.1): `disableScroll()` transitions
`Unlocked → Locked`; a cleaned-up (inert) instance ignores all calls. -/
def disableScroll (m : ScrollLockManager) : ScrollLockManager :=
  if m.inert then m else { m with state := LockState.Locked }

/-- Modelled from the spec (§4.1): `enableScroll()` transitions
`Locked → Unlocked`; a cleaned-up (inert) instance ignores all calls. -/
def enableScroll (m : ScrollLockManager) : ScrollLockManager :=
  if m.inert then m else { m with state := LockState.Unlocked }

/-- Modelled from the spec (§4.1): `cleanup()` forces `enableScroll` if
currently `Locked` and marks the instance permanently inert; on an already
inert instance it is a no-op. -/
def cleanup (m : ScrollLockManager) : ScrollLockManager :=
  if m.inert then m else ⟨LockState.Unlocked, true⟩

/-- A well-formed manager: once inert it is `Unlocked` (cleanup forced the
scroll back on).  Every manager produced by the modelled operations satisfies
this. -/
def mgrWF (m : ScrollLockManager) : Bool :=
  !m.inert || m.state == LockState.Unlocked

/-- The raw form fields of `SearchForm.js` (`formData` state, lines 8-13);
all four are strings coming from the controlled inputs. -/
structure FormData where
  from_ : String
  to_ : String
  date : String
  passengers : String
deriving DecidableEq, Repr

/-- The observable component state of `SearchForm.js`: the `scrollManagerRef`
ref (`current`), the `isLoading` and `error` states, the
`setIsBookingDialogOpen` signal, and whether `currentBookingData` is set.
`retired` is a ghost list of manager instances that were dropped from the ref
(used only to state global lock-count properties); `invocations` is a ghost
counter of calls to the widget (`openBookingDialog`). -/
structure World where
  current : Option ScrollLockManager
  retired : List ScrollLockManager
  isLoading : Bool
  dialogOpen : Bool
  error : String
  hasBookingData : Bool
  invocations : Nat
deriving DecidableEq, Repr

/-- The singleton list holding the currently referenced manager, if any. -/
def currentList (w : World) : List ScrollLockManager :=
  match w.current with
  | some m => [m]
  | none => []

/-- Every manager instance the session history has created: the retired ones
plus the currently referenced one. -/
def allMgrs (w : World) : List ScrollLockManager :=
  w.retired ++ currentList w

/-- The global count of manager instances currently in `Locked` state. -/
def lockedCount (w : World) : Nat :=
  (allMgrs w).countP (fun m => m.state == LockState.Locked)

/-- True when no manager instance (retired or current) is `Locked`, i.e. the
document scroll is not disabled by anyone. -/
def allUnlockedB (w : World) : Bool :=
  (allMgrs w).all (fun m => m.state == LockState.Unlocked)

/-- World well-formedness: all managers are `mgrWF`, and every retired
(no-longer-referenced) manager is `Unlocked` — the coordinator only drops a
reference after cleaning it up. -/
def worldWF (w : World) : Bool :=
  (allMgrs w).all mgrWF && w.retired.all (fun m => m.state == LockState.Unlocked)

/-- `validateForm` of `SearchForm.js` lines 58-80, returning the translation
key of the first failing check (the code passes it to `setError` via `t(...)`
and returns `false`), or `none` when validation passes. -/
def validateForm (fd : FormData) : Option String :=
  if fd.from_ = "" then some "selectDepartureError"
  else if fd.to_ = "" then some "selectDestinationError"
  else if fd.from_ = fd.to_ then some "differentCitiesError"
  else if fd.date = "" then some "selectDateError"
  else if fd.passengers = "" then some "selectPassengersError"
  else none

/-- Boolean test that `pre` is an initial segment of `l` (character lists). -/
def leadsWith : List Char → List Char → Bool
  | [], _ => true
  | _ :: _, [] => false
  | a :: as, b :: bs => a == b && leadsWith as bs

/-- Boolean test that `needle` occurs as a contiguous segment of `hay`
(character lists); models JavaScript `String.prototype.includes`. -/
def occursIn (needle : List Char) : List Char → Bool
  | [] => leadsWith needle []
  | b :: bs => leadsWith needle (b :: bs) || occursIn needle bs

/-- The test `error.message && error.message.includes('loading')` from
`SearchForm.js` line 150 (for a non-empty needle, `includes` already implies
the message is non-empty). -/
def errIncludesLoading (msg : String) : Bool :=
  occursIn "loading".toList msg.toList

/-- The error message thrown at `SearchForm.js` line 140 when
`window.safariplus` is undefined in production. -/
def widgetUnavailableMsg : String :=
  "SafariYetu booking system is loading. Please try again in a moment."

/-- Lines 91-94 of `SearchForm.js`: if `scrollManagerRef.current` exists, call
`cleanup()` on it (the reference itself is not cleared here). -/
def cleanupRef (w : World) : World :=
  match w.current with
  | some m => { w with current := some (cleanup m) }
  | none => w

/-- Lines 91-118 of `SearchForm.js` after validation passed: clean up any
existing scroll manager, then create a fresh instance into the ref, set
`isLoading := true`, signal `setIsBookingDialogOpen(true)` and store the
booking data.  The previously referenced instance (already cleaned) moves to
the ghost `retired` list when the ref is overwritten. -/
def prepareSession (w : World) : World :=
  let w1 := cleanupRef w
  { w1 with
      retired := w1.retired ++ currentList w1
      current := some createInstance
      isLoading := true
      dialogOpen := true
      hasBookingData := true }

/-- Lines 147-164 of `SearchForm.js`, the `catch` block: surface the message
only when it contains `'loading'` (otherwise suppress it), clean up and null
out the scroll manager ref, and reset loading / dialog-open / booking data.
The nulled-out (cleaned) instance moves to the ghost `retired` list. -/
def catchHandler (w : World) (msg : String) : World :=
  let w1 := { w with error := if errIncludesLoading msg then msg else "" }
  let w2 :=
    match w1.current with
    | some m => { w1 with current := none, retired := w1.retired ++ [cleanup m] }
    | none => w1
  { w2 with isLoading := false, dialogOpen := false, hasBookingData := false }

/-- Modelled from the spec: `openBookingDialog` belongs to
`safariYetuScrollManager.js`, which is not among the available sources.  Per
spec §4.2 step 3 and §4.1, invoking the widget applies the scroll-prevention
effect (`disableScroll`) on the owning manager and opens the external widget
(counted by the ghost `invocations` field). -/
def openBookingDialog (w : World) : World :=
  match w.current with
  | some m =>
      { w with current := some (disableScroll m), invocations := w.invocations + 1 }
  | none => w

/-- Lines 122-138 of `SearchForm.js`: the development mock disables scroll via
the manager and schedules a timeout; only the synchronous part is modelled
(the claims under verification concern the production paths). -/
def devMock (w : World) : World :=
  match w.current with
  | some m => { w with current := some (disableScroll m) }
  | none => w

/-- `process.env.NODE_ENV` as it is tested at `SearchForm.js` line 122. -/
inductive Env where
  | development
  | production
deriving DecidableEq, Repr

/-- Outcome of the awaited `openBookingDialog` call: it either resolves or
rejects with an error whose message is `msg` (caught at line 147). -/
inductive InvokeResult where
  | ok
  | threw (msg : String)
deriving DecidableEq, Repr

/-- `handleSubmit` of `SearchForm.js` lines 82-165: clear the error, validate
(writing the first failing check's message and stopping), otherwise prepare
the session, then either fail on widget unavailability (production), run the
development mock, or invoke the widget and catch a possible rejection. -/
def handleSubmit (w : World) (fd : FormData) (widgetAvailable : Bool)
    (env : Env) (r : InvokeResult) : World :=
  let w0 := { w with error := "" }
  match validateForm fd with
  | some msg => { w0 with error := msg }
  | none =>
    let w1 := prepareSession w0
    if widgetAvailable then
      match r with
      | InvokeResult.ok => openBookingDialog w1
      | InvokeResult.threw msg => catchHandler (openBookingDialog w1) msg
    else
      match env with
      | Env.development => devMock w1
      | Env.production => catchHandler w1 widgetUnavailableMsg

/-- The `onClose` closure built at `SearchForm.js` lines 103-111: reset
dialog-open, loading, booking data and suppress any error. -/
def onCloseApp (w : World) : World :=
  { w with dialogOpen := false, isLoading := false, hasBookingData := false,
           error := "" }

/-- The closure-callback resolution event.  The UI-state part is the `onClose`
closure of `SearchForm.js` lines 103-111.  Modelled from the spec: the widget
invokes `onClose` through `safariYetuScrollManager.js` (not among the
available sources), and per §4.2 step 4 the closure path also releases
(cleans up) the owning lock manager exactly once. -/
def closureCallbackFires (w : World) : World :=
  onCloseApp (cleanupRef w)

/-- Modelled from the spec: the presence monitor lives in
`safariYetuScrollManager.js` (not among the available sources); per §4.2
step 4, on detecting that the widget's markers have vanished it performs the
same reset as the closure callback — release the lock manager and reset the
session state. -/
def monitorDetect (w : World) : World :=
  onCloseApp (cleanupRef w)

/-- The three independent sources that can resolve an open session
(spec §4.2 steps 4-5). -/
inductive ResolutionSource where
  | callback
  | monitor
  | errorPath (msg : String)
deriving DecidableEq, Repr

/-- Apply one resolution source to the world. -/
def fireEvent : ResolutionSource → World → World
  | ResolutionSource.callback, w => closureCallbackFires w
  | ResolutionSource.monitor, w => monitorDetect w
  | ResolutionSource.errorPath msg, w => catchHandler w msg

/-- The reset state a resolved session must be in: loading off, dialog closed,
booking data cleared, and no manager holding the scroll lock. -/
def sessionResolved (w : World) : Prop :=
  w.isLoading = false ∧ w.dialogOpen = false ∧ w.hasBookingData = false ∧
    allUnlockedB w = true

/-- True when the referenced manager, if any, is inert (disposed). -/
def currentInertB (w : World) : Bool :=
  match w.current with
  | some m => m.inert
  | none => true

/-- The unmount-cleanup effect of `SearchForm.js` lines 39-46: on component
teardown, `cleanup()` the referenced manager and clear the ref.  The cleaned
instance moves to the ghost `retired` list. -/
def unmountCleanup (w : World) : World :=
  match w.current with
  | some m => { w with current := none, retired := w.retired ++ [cleanup m] }
  | none => w

/-- Lines 98-102 of `SearchForm.js`: the booking data handed to the widget
(the `onClose` closure field is modelled separately). -/
structure TripRequest where
  origin : String
  destination : String
  departureDate : String
  passengersCount : Option Nat
deriving DecidableEq, Repr

/-- Accumulate the leading decimal digits of a character list. -/
def parseDigits : List Char → Nat → Nat
  | [], acc => acc
  | c :: cs, acc =>
      if c.isDigit then parseDigits cs (acc * 10 + (c.toNat - 48)) else acc

/-- JavaScript `parseInt` on the strings this form produces: the value of the
leading run of decimal digits, or `none` (NaN) when the string does not start
with a digit.  (Sign, whitespace and radix handling are irrelevant to the
select values `"1"`..`"10"` and to the inputs considered here.) -/
def parseIntJS (s : String) : Option Nat :=
  match s.toList with
  | [] => none
  | c :: _ => if c.isDigit then some (parseDigits s.toList 0) else none

/-- Build the trip request from the raw form data as lines 98-102 do
(`parseInt(formData.passengers)`). -/
def mkTripRequest (fd : FormData) : TripRequest :=
  ⟨fd.from_, fd.to_, fd.date, parseIntJS fd.passengers⟩

/-- Strict lexicographic order on character lists; ISO-8601 date strings
compare chronologically under it. -/
def chListLt : List Char → List Char → Bool
  | [], [] => false
  | [], _ :: _ => true
  | _ :: _, [] => false
  | a :: as, b :: bs =>
      if a < b then true else if b < a then false else chListLt as bs

/-- `a` is strictly before `b` as ISO-8601 date strings. -/
def dateBefore (a b : String) : Bool :=
  chListLt a.toList b.toList

/-- The TripRequest invariant as the spec states it (§3): origin and
destination non-empty and distinct, departure date a calendar date `≥ today`,
passenger count a positive integer. -/
def tripInvariant (t : TripRequest) (today : String) : Prop :=
  t.origin ≠ "" ∧ t.destination ≠ "" ∧ t.origin ≠ t.destination ∧
    dateBefore t.departureDate today = false ∧
    (∃ n, t.passengersCount = some n ∧ 0 < n)

/-- One validation check of the spec (§4.2 step 1): a failure condition
paired with its user-facing message key. -/
def specChecks (fd : FormData) : List (Bool × String) :=
  [(fd.from_ = "", "selectDepartureError"),
   (fd.to_ = "", "selectDestinationError"),
   (fd.from_ = fd.to_, "differentCitiesError"),
   (fd.date = "", "selectDateError"),
   (fd.passengers = "", "selectPassengersError")]

/-- First-failure-wins over an ordered list of checks (spec §4.2 step 1):
report the message of the first check whose failure condition holds. -/
def firstFailing : List (Bool × String) → Option String
  | [] => none
  | (b, msg) :: rest => if b then some msg else firstFailing rest

/-! ## Basic lemmas about the manager operations -/

theorem mgrWF_cleanup (m : ScrollLockManager) (h : mgrWF m = true) :
    mgrWF (cleanup m) = true := by
  unfold cleanup
  by_cases hi : m.inert <;> simp [hi, mgrWF] at h ⊢
  exact h

theorem cleanup_unlocked (m : ScrollLockManager) (h : mgrWF m = true) :
    (cleanup m).state = LockState.Unlocked ∧ (cleanup m).inert = true := by
  unfold cleanup
  by_cases hi : m.inert <;> simp [hi]
  unfold mgrWF at h
  simp [hi] at h
  exact h

theorem cleanup_cleanup (m : ScrollLockManager) : cleanup (cleanup m) = cleanup m := by
  unfold cleanup
  by_cases hi : m.inert <;> simp [hi]

theorem worldWF_parts (w : World) (h : worldWF w = true) :
    (∀ m2 ∈ w.retired, mgrWF m2 = true) ∧
    (∀ m2 ∈ w.retired, m2.state = LockState.Unlocked) ∧
    (∀ m2, w.current = some m2 → mgrWF m2 = true) := by
  unfold worldWF allMgrs currentList at h
  cases hc : w.current with
  | none =>
    rw [hc] at h
    simp at h
    refine ⟨h.1, h.2, ?_⟩
    intro m2 hm
    cases hm
  | some m =>
    rw [hc] at h
    simp [List.all_append] at h
    refine ⟨h.1.1, h.2, ?_⟩
    intro m2 hm
    injection hm with he
    rw [← he]
    exact h.1.2

theorem countP_locked_zero (ms : List ScrollLockManager)
    (h : ∀ m2 ∈ ms, m2.state = LockState.Unlocked) :
    ms.countP (fun m => m.state == LockState.Locked) = 0 := by
  induction ms with
  | nil => simp
  | cons m ms ih =>
    have hm := h m (by simp)
    have h1 : (m.state == LockState.Locked) = false := by rw [hm]; decide
    rw [List.countP_cons]
    simp [h1]
    intro a ha
    rw [h a (by simp [ha])]
    decide

theorem prepareSession_current (w : World) :
    (prepareSession w).current = some createInstance := by
  cases hcur : w.current <;> simp [prepareSession, cleanupRef, hcur]

theorem prepareSession_fields (w : World) :
    (prepareSession w).isLoading = true ∧ (prepareSession w).dialogOpen = true ∧
    (prepareSession w).hasBookingData = true ∧
    (prepareSession w).error = w.error ∧
    (prepareSession w).invocations = w.invocations := by
  cases hcur : w.current <;> simp [prepareSession, cleanupRef, hcur]

theorem prepareSession_retired_none (w : World) (h : w.current = none) :
    (prepareSession w).retired = w.retired := by
  simp [prepareSession, cleanupRef, currentList, h]

theorem prepareSession_retired_some (w : World) (m : ScrollLockManager)
    (h : w.current = some m) :
    (prepareSession w).retired = w.retired ++ [cleanup m] := by
  simp [prepareSession, cleanupRef, currentList, h]

theorem prepareSession_retired_unlocked (w : World) (h : worldWF w = true) :
    ∀ m2 ∈ (prepareSession w).retired,
      m2.state = LockState.Unlocked ∧ mgrWF m2 = true := by
  obtain ⟨hr1, hr2, hc⟩ := worldWF_parts w h
  cases hcur : w.current with
  | none =>
    rw [prepareSession_retired_none w hcur]
    exact fun m2 hm2 => ⟨hr2 m2 hm2, hr1 m2 hm2⟩
  | some m =>
    rw [prepareSession_retired_some w m hcur]
    intro m2 hm2
    rw [List.mem_append] at hm2
    cases hm2 with
    | inl hin => exact ⟨hr2 m2 hin, hr1 m2 hin⟩
    | inr hin =>
      rw [List.mem_singleton] at hin
      subst hin
      have hwfm := hc m hcur
      exact ⟨(cleanup_unlocked m hwfm).1, mgrWF_cleanup m hwfm⟩

theorem prepareSession_wf (w : World) (h : worldWF w = true) :
    worldWF (prepareSession w) = true ∧ allUnlockedB (prepareSession w) = true := by
  have hret := prepareSession_retired_unlocked w h
  have hcur := prepareSession_current w
  constructor
  · rw [worldWF, Bool.and_eq_true, List.all_eq_true, List.all_eq_true]
    constructor
    · intro x hx
      rw [allMgrs, currentList, hcur, List.mem_append] at hx
      cases hx with
      | inl hin => exact (hret x hin).2
      | inr hin =>
        rw [List.mem_singleton] at hin
        subst hin
        decide
    · intro x hx
      rw [(hret x hx).1]
      decide
  · rw [allUnlockedB, List.all_eq_true]
    intro x hx
    rw [allMgrs, currentList, hcur, List.mem_append] at hx
    cases hx with
    | inl hin =>
      rw [(hret x hin).1]
      decide
    | inr hin =>
      rw [List.mem_singleton] at hin
      subst hin
      decide

theorem cleanup_inert (m : ScrollLockManager) : (cleanup m).inert = true := by
  unfold cleanup
  by_cases hi : m.inert <;> simp [hi]

theorem mgrWF_disableScroll (m : ScrollLockManager) (h : mgrWF m = true) :
    mgrWF (disableScroll m) = true := by
  unfold disableScroll
  by_cases hi : m.inert <;> simp [hi, mgrWF] at h ⊢
  exact h

theorem catchHandler_fields (w : World) (msg : String) :
    (catchHandler w msg).isLoading = false ∧
    (catchHandler w msg).dialogOpen = false ∧
    (catchHandler w msg).hasBookingData = false ∧
    (catchHandler w msg).current = none ∧
    (catchHandler w msg).error = (if errIncludesLoading msg then msg else "") ∧
    (catchHandler w msg).invocations = w.invocations := by
  cases hcur : w.current <;> simp [catchHandler, hcur]

theorem catchHandler_retired_unlocked (w : World) (msg : String)
    (h : worldWF w = true) :
    ∀ m2 ∈ (catchHandler w msg).retired,
      m2.state = LockState.Unlocked ∧ mgrWF m2 = true := by
  obtain ⟨hr1, hr2, hc⟩ := worldWF_parts w h
  cases hcur : w.current with
  | none =>
    simp only [catchHandler, hcur]
    exact fun m2 hm2 => ⟨hr2 m2 hm2, hr1 m2 hm2⟩
  | some m =>
    simp only [catchHandler, hcur]
    intro m2 hm2
    rw [List.mem_append] at hm2
    cases hm2 with
    | inl hin => exact ⟨hr2 m2 hin, hr1 m2 hin⟩
    | inr hin =>
      rw [List.mem_singleton] at hin
      subst hin
      have hwfm := hc m hcur
      exact ⟨(cleanup_unlocked m hwfm).1, mgrWF_cleanup m hwfm⟩

theorem catchHandler_wf (w : World) (msg : String) (h : worldWF w = true) :
    worldWF (catchHandler w msg) = true ∧
    allUnlockedB (catchHandler w msg) = true := by
  have hret := catchHandler_retired_unlocked w msg h
  have hcur := (catchHandler_fields w msg).2.2.2.1
  constructor
  · rw [worldWF, Bool.and_eq_true, List.all_eq_true, List.all_eq_true]
    constructor
    · intro x hx
      rw [allMgrs, currentList, hcur, List.append_nil] at hx
      exact (hret x hx).2
    · intro x hx
      rw [(hret x hx).1]
      decide
  · rw [allUnlockedB, List.all_eq_true]
    intro x hx
    rw [allMgrs, currentList, hcur, List.append_nil] at hx
    rw [(hret x hx).1]
    decide

theorem lockedCount_le_one (w : World)
    (h : ∀ m2 ∈ w.retired, m2.state = LockState.Unlocked) :
    lockedCount w ≤ 1 := by
  rw [lockedCount, allMgrs, List.countP_append, countP_locked_zero w.retired h,
    Nat.zero_add]
  cases hcur : w.current with
  | none => simp [currentList, hcur]
  | some m =>
    rw [currentList, hcur]
    by_cases hm : (m.state == LockState.Locked) = true <;>
      simp [List.countP_cons, hm]

theorem lockedCount_zero_of_unlocked (w : World) (h : allUnlockedB w = true) :
    lockedCount w = 0 := by
  rw [allUnlockedB, List.all_eq_true] at h
  rw [lockedCount]
  refine countP_locked_zero _ (fun m2 hm2 => ?_)
  have := h m2 hm2
  simpa using this

theorem openBookingDialog_wf (w : World) (h : worldWF w = true) :
    worldWF (openBookingDialog w) = true := by
  obtain ⟨hr1, hr2, hc⟩ := worldWF_parts w h
  cases hcur : w.current with
  | none =>
    simpa only [openBookingDialog, hcur] using h
  | some m =>
    rw [worldWF, Bool.and_eq_true, List.all_eq_true, List.all_eq_true]
    simp only [openBookingDialog, hcur]
    constructor
    · intro x hx
      rw [allMgrs, currentList, List.mem_append] at hx
      cases hx with
      | inl hin => exact hr1 x hin
      | inr hin =>
        simp only [List.mem_singleton] at hin
        subst hin
        exact mgrWF_disableScroll m (hc m hcur)
    · intro x hx
      rw [(hr2 x hx)]
      decide

theorem allUnlockedB_of_parts (w : World)
    (h1 : ∀ m2 ∈ w.retired, m2.state = LockState.Unlocked)
    (h2 : ∀ m2, w.current = some m2 → m2.state = LockState.Unlocked) :
    allUnlockedB w = true := by
  rw [allUnlockedB, List.all_eq_true]
  intro x hx
  rw [allMgrs, List.mem_append] at hx
  cases hx with
  | inl hin =>
    rw [h1 x hin]
    decide
  | inr hin =>
    cases hcur : w.current with
    | none =>
      rw [currentList, hcur] at hin
      cases hin
    | some m =>
      rw [currentList, hcur, List.mem_singleton] at hin
      subst hin
      rw [h2 _ hcur]
      decide

theorem worldWF_of_parts (w : World)
    (h1 : ∀ m2 ∈ w.retired, m2.state = LockState.Unlocked ∧ mgrWF m2 = true)
    (h2 : ∀ m2, w.current = some m2 → mgrWF m2 = true) :
    worldWF w = true := by
  rw [worldWF, Bool.and_eq_true, List.all_eq_true, List.all_eq_true]
  constructor
  · intro x hx
    rw [allMgrs, List.mem_append] at hx
    cases hx with
    | inl hin => exact (h1 x hin).2
    | inr hin =>
      cases hcur : w.current with
      | none =>
        rw [currentList, hcur] at hin
        cases hin
      | some m =>
        rw [currentList, hcur, List.mem_singleton] at hin
        subst hin
        exact h2 _ hcur
  · intro x hx
    rw [(h1 x hx).1]
    decide

theorem closureCallback_fields (w : World) :
    (closureCallbackFires w).isLoading = false ∧
    (closureCallbackFires w).dialogOpen = false ∧
    (closureCallbackFires w).hasBookingData = false ∧
    (closureCallbackFires w).error = "" ∧
    (closureCallbackFires w).retired = w.retired ∧
    (closureCallbackFires w).current = Option.map cleanup w.current := by
  cases hcur : w.current <;>
    simp [closureCallbackFires, onCloseApp, cleanupRef, hcur]

theorem closureCallback_resolved (w : World) (h : worldWF w = true) :
    sessionResolved (closureCallbackFires w) ∧
    worldWF (closureCallbackFires w) = true ∧
    currentInertB (closureCallbackFires w) = true := by
  obtain ⟨hr1, hr2, hc⟩ := worldWF_parts w h
  obtain ⟨f1, f2, f3, f4, f5, f6⟩ := closureCallback_fields w
  have hcur2 : ∀ m2, (closureCallbackFires w).current = some m2 →
      m2.state = LockState.Unlocked ∧ m2.inert = true ∧ mgrWF m2 = true := by
    intro m2 hm2
    rw [f6] at hm2
    cases hcur : w.current with
    | none =>
      rw [hcur] at hm2
      cases hm2
    | some m =>
      rw [hcur] at hm2
      have hm3 : some (cleanup m) = some m2 := hm2
      injection hm3 with he
      subst he
      exact ⟨(cleanup_unlocked m (hc m hcur)).1, cleanup_inert m,
        mgrWF_cleanup m (hc m hcur)⟩
  refine ⟨⟨f1, f2, f3, ?_⟩, ?_, ?_⟩
  · refine allUnlockedB_of_parts _ ?_ (fun m2 hm2 => (hcur2 m2 hm2).1)
    rw [f5]
    exact hr2
  · refine worldWF_of_parts _ ?_ (fun m2 hm2 => (hcur2 m2 hm2).2.2)
    rw [f5]
    exact fun m2 hm2 => ⟨hr2 m2 hm2, hr1 m2 hm2⟩
  · rw [currentInertB]
    cases hcc : (closureCallbackFires w).current with
    | none => rfl
    | some m2 => exact (hcur2 m2 hcc).2.1

theorem catchHandler_resolved (w : World) (msg : String) (h : worldWF w = true) :
    sessionResolved (catchHandler w msg) ∧
    worldWF (catchHandler w msg) = true ∧
    currentInertB (catchHandler w msg) = true := by
  obtain ⟨f1, f2, f3, f4, f5, f6⟩ := catchHandler_fields w msg
  obtain ⟨hwf, hun⟩ := catchHandler_wf w msg h
  refine ⟨⟨f1, f2, f3, hun⟩, hwf, ?_⟩
  rw [currentInertB, f4]

theorem fireEvent_resolves (w : World) (e : ResolutionSource)
    (h : worldWF w = true) :
    sessionResolved (fireEvent e w) ∧ worldWF (fireEvent e w) = true ∧
    currentInertB (fireEvent e w) = true := by
  cases e with
  | callback => exact closureCallback_resolved w h
  | monitor => exact closureCallback_resolved w h
  | errorPath msg => exact catchHandler_resolved w msg h

theorem handleSubmit_ok_eq (w : World) (fd : FormData) (env : Env)
    (hv : validateForm fd = none) :
    handleSubmit w fd true env InvokeResult.ok =
      openBookingDialog (prepareSession { w with error := "" }) := by
  simp [handleSubmit, hv]

theorem openBookingDialog_retired (w : World) :
    (openBookingDialog w).retired = w.retired := by
  cases hcur : w.current <;> simp [openBookingDialog, hcur]

theorem devMock_retired (w : World) :
    (devMock w).retired = w.retired := by
  cases hcur : w.current <;> simp [devMock, hcur]

theorem loadingMsg_included : errIncludesLoading widgetUnavailableMsg = true := by
  decide

theorem loadingMsg_ne_empty : widgetUnavailableMsg ≠ "" := by
  decide

theorem monitor_after_callback (w : World) :
    monitorDetect (closureCallbackFires w) = closureCallbackFires w := by
  cases hcur : w.current <;>
    simp [monitorDetect, closureCallbackFires, onCloseApp, cleanupRef, hcur,
      cleanup_cleanup]

/-- C6: validation is ordered with first-failure-wins: `validateForm` reports
exactly the message of the first failing check in the order origin present,
destination present, origin ≠ destination, date present, passenger count
present, and no later rule is ever reported in the same attempt. -/
theorem validation_first_failure_wins (fd : FormData) :
    validateForm fd = firstFailing (specChecks fd) := by
  by_cases h1 : fd.from_ = "" <;> by_cases h2 : fd.to_ = "" <;>
    by_cases h3 : fd.from_ = fd.to_ <;> by_cases h4 : fd.date = "" <;>
      by_cases h5 : fd.passengers = "" <;>
        simp [validateForm, specChecks, firstFailing, h1, h2, h3, h4, h5]

/-- C7: validation failure is side-effect free: when validation rejects the
input, `handleSubmit` only sets the error message — the resulting state is the
old one with `error := msg`, so no manager is created or locked, the widget is
not invoked, and `isLoading` / `dialogOpen` are unchanged. -/
theorem validation_failure_no_side_effects (w : World) (fd : FormData)
    (avail : Bool) (env : Env) (r : InvokeResult) (msg : String)
    (hv : validateForm fd = some msg) :
    handleSubmit w fd avail env r = { w with error := msg } ∧
    (handleSubmit w fd avail env r).current = w.current ∧
    (handleSubmit w fd avail env r).retired = w.retired ∧
    (handleSubmit w fd avail env r).invocations = w.invocations ∧
    (handleSubmit w fd avail env r).isLoading = w.isLoading ∧
    (handleSubmit w fd avail env r).dialogOpen = w.dialogOpen := by
  have heq : handleSubmit w fd avail env r = { w with error := msg } := by
    simp [handleSubmit, hv]
  rw [heq]
  exact ⟨rfl, rfl, rfl, rfl, rfl, rfl⟩

/-- C7 witness: a concrete input missing `from` is rejected and leaves
everything but the error message untouched. -/
theorem validation_failure_no_side_effects_witness :
    validateForm ⟨"", "mwanza", "2026-12-01", "2"⟩ =
        some "selectDepartureError" ∧
    handleSubmit
        { current := none, retired := [], isLoading := false,
          dialogOpen := false, error := "", hasBookingData := false,
          invocations := 0 }
        ⟨"", "mwanza", "2026-12-01", "2"⟩ true Env.production InvokeResult.ok =
      { current := none, retired := [], isLoading := false,
        dialogOpen := false, error := "selectDepartureError",
        hasBookingData := false, invocations := 0 } :=
  ⟨by decide,
    (validation_failure_no_side_effects
      { current := none, retired := [], isLoading := false,
        dialogOpen := false, error := "", hasBookingData := false,
        invocations := 0 }
      ⟨"", "mwanza", "2026-12-01", "2"⟩ true Env.production InvokeResult.ok
      "selectDepartureError" (by decide)).1⟩

/-- C1: at most one manager instance is in `Locked` state globally: when
`submit` passes validation while a prior manager reference exists, `cleanup()`
runs on the prior manager (leaving it `Unlocked`) in the cleanup step that
precedes the creation of the fresh instance, and after the whole submission
the global count of `Locked` managers is at most 1. -/
theorem submit_single_lock (w : World) (fd : FormData) (avail : Bool)
    (env : Env) (r : InvokeResult) (m : ScrollLockManager)
    (hv : validateForm fd = none) (hwf : worldWF w = true)
    (hcur : w.current = some m) :
    (cleanupRef { w with error := "" }).current = some (cleanup m) ∧
    (cleanup m).state = LockState.Unlocked ∧
    (prepareSession { w with error := "" }).current = some createInstance ∧
    lockedCount (handleSubmit w fd avail env r) ≤ 1 := by
  have hwf0 : worldWF { w with error := "" } = true := hwf
  have hprep := prepareSession_wf { w with error := "" } hwf0
  have hret := prepareSession_retired_unlocked { w with error := "" } hwf0
  refine ⟨?_, (cleanup_unlocked m ((worldWF_parts w hwf).2.2 m hcur)).1,
    prepareSession_current _, ?_⟩
  · simp [cleanupRef, hcur]
  · cases avail with
    | true =>
      cases r with
      | ok =>
        rw [handleSubmit_ok_eq w fd env hv]
        refine lockedCount_le_one _ ?_
        rw [openBookingDialog_retired]
        exact fun m2 hm2 => (hret m2 hm2).1
      | threw msg =>
        have heq : handleSubmit w fd true env (InvokeResult.threw msg) =
            catchHandler
              (openBookingDialog (prepareSession { w with error := "" })) msg := by
          simp [handleSubmit, hv]
        rw [heq]
        have hwf2 := openBookingDialog_wf _ hprep.1
        rw [lockedCount_zero_of_unlocked _ (catchHandler_wf _ msg hwf2).2]
        exact Nat.zero_le 1
    | false =>
      cases env with
      | development =>
        have heq : handleSubmit w fd false Env.development r =
            devMock (prepareSession { w with error := "" }) := by
          simp [handleSubmit, hv]
        rw [heq]
        refine lockedCount_le_one _ ?_
        rw [devMock_retired]
        exact fun m2 hm2 => (hret m2 hm2).1
      | production =>
        have heq : handleSubmit w fd false Env.production r =
            catchHandler (prepareSession { w with error := "" })
              widgetUnavailableMsg := by
          simp [handleSubmit, hv]
        rw [heq]
        rw [lockedCount_zero_of_unlocked _ (catchHandler_wf _ _ hprep.1).2]
        exact Nat.zero_le 1

/-- C1 witness: a second submission while a prior manager is still `Locked`
cleans the prior manager up and never has more than one `Locked` instance. -/
theorem submit_single_lock_witness :
    validateForm ⟨"mwanza", "dar-es-salaam", "2026-12-01", "2"⟩ = none ∧
    worldWF
      { current := some ⟨LockState.Locked, false⟩, retired := [],
        isLoading := true, dialogOpen := true, error := "",
        hasBookingData := true, invocations := 1 } = true ∧
    ((cleanupRef
        { current := some ⟨LockState.Locked, false⟩, retired := [],
          isLoading := true, dialogOpen := true, error := "",
          hasBookingData := true, invocations := 1 }).current =
        some (cleanup ⟨LockState.Locked, false⟩) ∧
      (cleanup ⟨LockState.Locked, false⟩).state = LockState.Unlocked ∧
      (prepareSession
        { current := some ⟨LockState.Locked, false⟩, retired := [],
          isLoading := true, dialogOpen := true, error := "",
          hasBookingData := true, invocations := 1 }).current =
        some createInstance ∧
      lockedCount
        (handleSubmit
          { current := some ⟨LockState.Locked, false⟩, retired := [],
            isLoading := true, dialogOpen := true, error := "",
            hasBookingData := true, invocations := 1 }
          ⟨"mwanza", "dar-es-salaam", "2026-12-01", "2"⟩ true Env.production
          InvokeResult.ok) ≤ 1) :=
  ⟨by decide, by decide,
    by
      have h := submit_single_lock
        { current := some ⟨LockState.Locked, false⟩, retired := [],
          isLoading := true, dialogOpen := true, error := "",
          hasBookingData := true, invocations := 1 }
        ⟨"mwanza", "dar-es-salaam", "2026-12-01", "2"⟩ true Env.production
        InvokeResult.ok ⟨LockState.Locked, false⟩ (by decide) (by decide) rfl
      exact ⟨h.1, h.2.1, h.2.2.1, h.2.2.2⟩⟩

/-- C4: with valid input and the widget global unavailable in production,
`submit` surfaces the widget-unavailable (loading) message and rolls the
prepared session back entirely: loading and dialog-open are true in the
prepared intermediate state and false again afterwards, the manager is
cleaned up so every instance ends `Unlocked`, and the visible error message
is non-empty. -/
theorem widget_unavailable_rollback (w : World) (fd : FormData)
    (r : InvokeResult) (hv : validateForm fd = none)
    (hwf : worldWF w = true) :
    (prepareSession { w with error := "" }).isLoading = true ∧
    (prepareSession { w with error := "" }).dialogOpen = true ∧
    (handleSubmit w fd false Env.production r).isLoading = false ∧
    (handleSubmit w fd false Env.production r).dialogOpen = false ∧
    (handleSubmit w fd false Env.production r).error = widgetUnavailableMsg ∧
    (handleSubmit w fd false Env.production r).error ≠ "" ∧
    allUnlockedB (handleSubmit w fd false Env.production r) = true ∧
    (handleSubmit w fd false Env.production r).current = none := by
  have hwf0 : worldWF { w with error := "" } = true := hwf
  have hprep := prepareSession_wf { w with error := "" } hwf0
  have heq : handleSubmit w fd false Env.production r =
      catchHandler (prepareSession { w with error := "" })
        widgetUnavailableMsg := by
    simp [handleSubmit, hv]
  obtain ⟨hf1, hf2, hf3, hf4, hf5, hf6⟩ :=
    catchHandler_fields (prepareSession { w with error := "" })
      widgetUnavailableMsg
  have herr : (catchHandler (prepareSession { w with error := "" })
      widgetUnavailableMsg).error = widgetUnavailableMsg := by
    rw [hf5, loadingMsg_included]
    rfl
  obtain ⟨hp1, hp2, hp3, hp4, hp5⟩ :=
    prepareSession_fields { w with error := "" }
  refine ⟨hp1, hp2, ?_, ?_, ?_, ?_, ?_, ?_⟩
  · rw [heq]
    exact hf1
  · rw [heq]
    exact hf2
  · rw [heq]
    exact herr
  · rw [heq, herr]
    exact loadingMsg_ne_empty
  · rw [heq]
    exact (catchHandler_wf _ _ hprep.1).2
  · rw [heq]
    exact hf4

/-- C4 witness: a concrete valid submission with the widget unavailable in
production ends unloaded, closed, unlocked and with a visible message. -/
theorem widget_unavailable_rollback_witness :
    validateForm ⟨"mwanza", "kahama", "2026-12-01", "3"⟩ = none ∧
    worldWF
      { current := none, retired := [], isLoading := false,
        dialogOpen := false, error := "", hasBookingData := false,
        invocations := 0 } = true ∧
    (handleSubmit
      { current := none, retired := [], isLoading := false,
        dialogOpen := false, error := "", hasBookingData := false,
        invocations := 0 }
      ⟨"mwanza", "kahama", "2026-12-01", "3"⟩ false Env.production
      InvokeResult.ok).error ≠ "" :=
  ⟨by decide, by decide,
    (widget_unavailable_rollback
      { current := none, retired := [], isLoading := false,
        dialogOpen := false, error := "", hasBookingData := false,
        invocations := 0 }
      ⟨"mwanza", "kahama", "2026-12-01", "3"⟩ InvokeResult.ok (by decide)
      (by decide)).2.2.2.2.2.1⟩

/-- C5: any failure raised during or after widget invocation whose message is
not a loading (widget-unavailable) message is suppressed — the user-visible
error ends empty — while state is silently reset: the manager is cleaned up
and the reference cleared, loading, dialog-open and session data are cleared;
conversely, a non-empty error after the invocation path implies the message
was a loading message, so only the widget-unavailable error is surfaced. -/
theorem non_loading_error_suppressed (w : World) (fd : FormData) (env : Env)
    (msg : String) (hv : validateForm fd = none) (hwf : worldWF w = true) :
    (errIncludesLoading msg = false →
      (handleSubmit w fd true env (InvokeResult.threw msg)).error = "") ∧
    (handleSubmit w fd true env (InvokeResult.threw msg)).current = none ∧
    (handleSubmit w fd true env (InvokeResult.threw msg)).isLoading = false ∧
    (handleSubmit w fd true env (InvokeResult.threw msg)).dialogOpen = false ∧
    (handleSubmit w fd true env (InvokeResult.threw msg)).hasBookingData
        = false ∧
    allUnlockedB (handleSubmit w fd true env (InvokeResult.threw msg))
        = true ∧
    ((handleSubmit w fd true env (InvokeResult.threw msg)).error ≠ "" →
      errIncludesLoading msg = true) := by
  have hwf0 : worldWF { w with error := "" } = true := hwf
  have hprep := prepareSession_wf { w with error := "" } hwf0
  have hwf2 := openBookingDialog_wf _ hprep.1
  have heq : handleSubmit w fd true env (InvokeResult.threw msg) =
      catchHandler
        (openBookingDialog (prepareSession { w with error := "" })) msg := by
    simp [handleSubmit, hv]
  obtain ⟨hf1, hf2, hf3, hf4, hf5, hf6⟩ :=
    catchHandler_fields
      (openBookingDialog (prepareSession { w with error := "" })) msg
  rw [heq]
  refine ⟨?_, hf4, hf1, hf2, hf3, (catchHandler_wf _ msg hwf2).2, ?_⟩
  · intro hno
    rw [hf5, hno]
    rfl
  · intro hne
    by_cases hl : errIncludesLoading msg = true
    · exact hl
    · rw [hf5, Bool.not_eq_true] at *
      rw [hl] at hne
      exact absurd rfl hne

/-- C5 witness: a concrete non-loading rejection is suppressed and resets
state silently. -/
theorem non_loading_error_suppressed_witness :
    validateForm ⟨"moshi", "mwanza", "2026-12-01", "1"⟩ = none ∧
    worldWF
      { current := none, retired := [], isLoading := false,
        dialogOpen := false, error := "", hasBookingData := false,
        invocations := 0 } = true ∧
    errIncludesLoading "user closed panel" = false ∧
    (handleSubmit
      { current := none, retired := [], isLoading := false,
        dialogOpen := false, error := "", hasBookingData := false,
        invocations := 0 }
      ⟨"moshi", "mwanza", "2026-12-01", "1"⟩ true Env.production
      (InvokeResult.threw "user closed panel")).error = "" :=
  ⟨by decide, by decide, by decide,
    (non_loading_error_suppressed
      { current := none, retired := [], isLoading := false,
        dialogOpen := false, error := "", hasBookingData := false,
        invocations := 0 }
      ⟨"moshi", "mwanza", "2026-12-01", "1"⟩ Env.production
      "user closed panel" (by decide) (by decide)).1 (by decide)⟩

/-- C2: session resolution is exactly-once and idempotent: for a session that
reaches widget invocation, whichever of closure callback, presence monitor or
error path fires first leaves the session fully reset (loading off, dialog
closed, data cleared, every manager `Unlocked`), the owning manager inert, and
any subsequent firing of any source leaves the session in that same reset
state with no manager ever re-entering `Locked`. -/
theorem resolution_exactly_once (w : World) (fd : FormData) (env : Env)
    (s : World) (e1 e2 : ResolutionSource) (hv : validateForm fd = none)
    (hwf : worldWF w = true)
    (hs : s = handleSubmit w fd true env InvokeResult.ok) :
    sessionResolved (fireEvent e1 s) ∧
    currentInertB (fireEvent e1 s) = true ∧
    sessionResolved (fireEvent e2 (fireEvent e1 s)) ∧
    currentInertB (fireEvent e2 (fireEvent e1 s)) = true ∧
    lockedCount (fireEvent e2 (fireEvent e1 s)) = 0 := by
  have hwf0 : worldWF { w with error := "" } = true := hwf
  have hws : worldWF s = true := by
    rw [hs, handleSubmit_ok_eq w fd env hv]
    exact openBookingDialog_wf _ (prepareSession_wf _ hwf0).1
  obtain ⟨h1res, h1wf, h1in⟩ := fireEvent_resolves s e1 hws
  obtain ⟨h2res, h2wf, h2in⟩ := fireEvent_resolves (fireEvent e1 s) e2 h1wf
  exact ⟨h1res, h1in, h2res, h2in,
    lockedCount_zero_of_unlocked _ h2res.2.2.2⟩

/-- C2 witness: with a concrete valid session, the callback resolving first
and the monitor firing afterwards never yields a second reset or a `Locked`
manager. -/
theorem resolution_exactly_once_witness :
    validateForm ⟨"kahama", "moshi", "2026-12-01", "4"⟩ = none ∧
    worldWF
      { current := none, retired := [], isLoading := false,
        dialogOpen := false, error := "", hasBookingData := false,
        invocations := 0 } = true ∧
    lockedCount
      (fireEvent ResolutionSource.monitor
        (fireEvent ResolutionSource.callback
          (handleSubmit
            { current := none, retired := [], isLoading := false,
              dialogOpen := false, error := "", hasBookingData := false,
              invocations := 0 }
            ⟨"kahama", "moshi", "2026-12-01", "4"⟩ true Env.production
            InvokeResult.ok))) = 0 :=
  ⟨by decide, by decide,
    (resolution_exactly_once
      { current := none, retired := [], isLoading := false,
        dialogOpen := false, error := "", hasBookingData := false,
        invocations := 0 }
      ⟨"kahama", "moshi", "2026-12-01", "4"⟩ Env.production
      (handleSubmit
        { current := none, retired := [], isLoading := false,
          dialogOpen := false, error := "", hasBookingData := false,
          invocations := 0 }
        ⟨"kahama", "moshi", "2026-12-01", "4"⟩ true Env.production
        InvokeResult.ok)
      ResolutionSource.callback ResolutionSource.monitor (by decide)
      (by decide) rfl).2.2.2.2⟩

/-- C3: when the widget's closure callback fires on an open session, the
coordinator resets loading, dialog-open, the session data and the error, and
the owned lock manager is released (inert, `Unlocked`); a subsequent firing of
the polling monitor leaves the state exactly unchanged, so the reset happens
exactly once. -/
theorem callback_resets_and_releases (w : World) (fd : FormData) (env : Env)
    (s : World) (hv : validateForm fd = none) (hwf : worldWF w = true)
    (hs : s = handleSubmit w fd true env InvokeResult.ok) :
    (closureCallbackFires s).isLoading = false ∧
    (closureCallbackFires s).dialogOpen = false ∧
    (closureCallbackFires s).hasBookingData = false ∧
    (closureCallbackFires s).error = "" ∧
    currentInertB (closureCallbackFires s) = true ∧
    allUnlockedB (closureCallbackFires s) = true ∧
    monitorDetect (closureCallbackFires s) = closureCallbackFires s := by
  have hwf0 : worldWF { w with error := "" } = true := hwf
  have hws : worldWF s = true := by
    rw [hs, handleSubmit_ok_eq w fd env hv]
    exact openBookingDialog_wf _ (prepareSession_wf _ hwf0).1
  obtain ⟨hres, hwf2, hin⟩ := closureCallback_resolved s hws
  obtain ⟨hf1, hf2, hf3, hf4, hf5, hf6⟩ := closureCallback_fields s
  exact ⟨hf1, hf2, hf3, hf4, hin, hres.2.2.2, monitor_after_callback s⟩

/-- C3 witness: a concrete open session resolved by the callback; the monitor
firing afterwards changes nothing. -/
theorem callback_resets_and_releases_witness :
    validateForm ⟨"dar-es-salaam", "mwanza", "2026-12-01", "2"⟩ = none ∧
    worldWF
      { current := none, retired := [], isLoading := false,
        dialogOpen := false, error := "", hasBookingData := false,
        invocations := 0 } = true ∧
    monitorDetect
        (closureCallbackFires
          (handleSubmit
            { current := none, retired := [], isLoading := false,
              dialogOpen := false, error := "", hasBookingData := false,
              invocations := 0 }
            ⟨"dar-es-salaam", "mwanza", "2026-12-01", "2"⟩ true
            Env.production InvokeResult.ok)) =
      closureCallbackFires
        (handleSubmit
          { current := none, retired := [], isLoading := false,
            dialogOpen := false, error := "", hasBookingData := false,
            invocations := 0 }
          ⟨"dar-es-salaam", "mwanza", "2026-12-01", "2"⟩ true
          Env.production InvokeResult.ok) :=
  ⟨by decide, by decide,
    (callback_resets_and_releases
      { current := none, retired := [], isLoading := false,
        dialogOpen := false, error := "", hasBookingData := false,
        invocations := 0 }
      ⟨"dar-es-salaam", "mwanza", "2026-12-01", "2"⟩ Env.production
      (handleSubmit
        { current := none, retired := [], isLoading := false,
          dialogOpen := false, error := "", hasBookingData := false,
          invocations := 0 }
        ⟨"dar-es-salaam", "mwanza", "2026-12-01", "2"⟩ true Env.production
        InvokeResult.ok)
      (by decide) (by decide) rfl).2.2.2.2.2.2⟩

/-- C8 counterexample: the raw input (mwanza, kahama, date "1999-01-01",
passengers "0") is accepted by `validateForm`, yet the trip request built
from it has a departure date strictly before "2026-10-11" and a passenger
count of 0 — `validateForm` checks only non-emptiness of the date and
passenger strings, so the spec's TripRequest invariant (date ≥ today,
positive passenger count) does not hold for every accepted raw input. -/
theorem trip_invariant_counterexample :
    validateForm ⟨"mwanza", "kahama", "1999-01-01", "0"⟩ = none ∧
    dateBefore
      (mkTripRequest ⟨"mwanza", "kahama", "1999-01-01", "0"⟩).departureDate
      "2026-10-11" = true ∧
    (mkTripRequest ⟨"mwanza", "kahama", "1999-01-01", "0"⟩).passengersCount =
      some 0 ∧
    ¬ tripInvariant (mkTripRequest ⟨"mwanza", "kahama", "1999-01-01", "0"⟩)
      "2026-10-11" := by
  refine ⟨by decide, by decide, by decide, ?_⟩
  intro h
  exact absurd h.2.2.2.1 (by decide)

/-- C8 (amended): for every raw input accepted by validation, the trip
request handed to the widget has a non-empty origin, a non-empty destination
distinct from it, a non-empty departure-date string and a non-empty
passenger-count string; the date ≥ today and positive-count constraints are
imposed only by the form controls, not by validation. -/
theorem validation_guarantees (fd : FormData)
    (hv : validateForm fd = none) :
    mkTripRequest fd =
      ⟨fd.from_, fd.to_, fd.date, parseIntJS fd.passengers⟩ ∧
    (mkTripRequest fd).origin ≠ "" ∧
    (mkTripRequest fd).destination ≠ "" ∧
    (mkTripRequest fd).origin ≠ (mkTripRequest fd).destination ∧
    (mkTripRequest fd).departureDate ≠ "" ∧
    fd.passengers ≠ "" := by
  unfold validateForm at hv
  split_ifs at hv with h1 h2 h3 h4 h5
  exact ⟨rfl, h1, h2, h3, h4, h5⟩

/-- C8 witness: the amended guarantee at a concrete accepted input. -/
theorem validation_guarantees_witness :
    validateForm ⟨"mwanza", "moshi", "2026-12-20", "5"⟩ = none ∧
    (mkTripRequest ⟨"mwanza", "moshi", "2026-12-20", "5"⟩).origin ≠
      (mkTripRequest ⟨"mwanza", "moshi", "2026-12-20", "5"⟩).destination :=
  ⟨by decide,
    (validation_guarantees ⟨"mwanza", "moshi", "2026-12-20", "5"⟩
      (by decide)).2.2.2.1⟩

/-- C9 counterexample: at a concrete valid input and empty starting world,
the session-prepare segment (everything before the widget-availability check)
has set loading and dialog-open and created the fresh manager, yet every
manager instance is still `Unlocked` and the new instance is the untouched
`createInstance` — scroll disabling is not part of the prepare step; it
happens only after the availability check (in the widget invocation or the
development mock). -/
theorem prepare_no_scroll_disable :
    validateForm ⟨"mwanza", "dar-es-salaam", "2026-12-01", "2"⟩ = none ∧
    (prepareSession
      { current := none, retired := [], isLoading := false,
        dialogOpen := false, error := "", hasBookingData := false,
        invocations := 0 }).isLoading = true ∧
    (prepareSession
      { current := none, retired := [], isLoading := false,
        dialogOpen := false, error := "", hasBookingData := false,
        invocations := 0 }).dialogOpen = true ∧
    (prepareSession
      { current := none, retired := [], isLoading := false,
        dialogOpen := false, error := "", hasBookingData := false,
        invocations := 0 }).current = some createInstance ∧
    createInstance.state = LockState.Unlocked ∧
    lockedCount
      (prepareSession
        { current := none, retired := [], isLoading := false,
          dialogOpen := false, error := "", hasBookingData := false,
          invocations := 0 }) = 0 := by
  decide

/-- C9 (amended): for every submission that passes validation, the
session-prepare step performed before the widget-availability check consists
of cleaning up any stale lock manager, creating a new `ScrollLockManager`
(still `Unlocked` — construction has no document side effect), setting
loading to true, setting dialog-open to true and storing the session data;
disabling scroll happens only after the availability check. -/
theorem prepare_session_effects (w : World) (fd : FormData)
    (hv : validateForm fd = none) (hwf : worldWF w = true) :
    (∀ m, w.current = some m →
      (cleanupRef { w with error := "" }).current = some (cleanup m) ∧
        (cleanup m).inert = true ∧
        (cleanup m).state = LockState.Unlocked) ∧
    (prepareSession { w with error := "" }).current = some createInstance ∧
    createInstance.inert = false ∧
    (prepareSession { w with error := "" }).isLoading = true ∧
    (prepareSession { w with error := "" }).dialogOpen = true ∧
    (prepareSession { w with error := "" }).hasBookingData = true ∧
    allUnlockedB (prepareSession { w with error := "" }) = true ∧
    (∀ env, handleSubmit w fd true env InvokeResult.ok =
      openBookingDialog (prepareSession { w with error := "" })) := by
  have hwf0 : worldWF { w with error := "" } = true := hwf
  obtain ⟨hp1, hp2, hp3, hp4, hp5⟩ := prepareSession_fields { w with error := "" }
  refine ⟨?_, prepareSession_current _, rfl, hp1, hp2, hp3,
    (prepareSession_wf _ hwf0).2, fun env => handleSubmit_ok_eq w fd env hv⟩
  intro m hcur
  have hwfm := (worldWF_parts w hwf).2.2 m hcur
  refine ⟨?_, cleanup_inert m, (cleanup_unlocked m hwfm).1⟩
  simp [cleanupRef, hcur]

/-- C9 witness: the amended prepare-step description at a concrete input with
a stale prior manager. -/
theorem prepare_session_effects_witness :
    validateForm ⟨"kahama", "mwanza", "2026-12-01", "1"⟩ = none ∧
    worldWF
      { current := some ⟨LockState.Locked, false⟩, retired := [],
        isLoading := true, dialogOpen := true, error := "",
        hasBookingData := true, invocations := 1 } = true ∧
    allUnlockedB
      (prepareSession
        { current := some ⟨LockState.Locked, false⟩, retired := [],
          isLoading := true, dialogOpen := true, error := "",
          hasBookingData := true, invocations := 1 }) = true :=
  ⟨by decide, by decide,
    (prepare_session_effects
      { current := some ⟨LockState.Locked, false⟩, retired := [],
        isLoading := true, dialogOpen := true, error := "",
        hasBookingData := true, invocations := 1 }
      ⟨"kahama", "mwanza", "2026-12-01", "1"⟩ (by decide)
      (by decide)).2.2.2.2.2.2.1⟩

/-- C10: unmounting the component while a live manager reference is held
calls `cleanup()` on that manager (it becomes inert and `Unlocked`) and
clears the reference, so that no manager instance holds the document scroll
lock after teardown. -/
theorem unmount_releases_lock (w : World) (m : ScrollLockManager)
    (hwf : worldWF w = true) (hcur : w.current = some m) :
    (unmountCleanup w).current = none ∧
    (unmountCleanup w).retired = w.retired ++ [cleanup m] ∧
    (cleanup m).inert = true ∧
    (cleanup m).state = LockState.Unlocked ∧
    allUnlockedB (unmountCleanup w) = true := by
  obtain ⟨hr1, hr2, hc⟩ := worldWF_parts w hwf
  have hwfm := hc m hcur
  refine ⟨?_, ?_, cleanup_inert m, (cleanup_unlocked m hwfm).1, ?_⟩
  · simp [unmountCleanup, hcur]
  · simp [unmountCleanup, hcur]
  · refine allUnlockedB_of_parts _ ?_ ?_
    · intro m2 hm2
      simp only [unmountCleanup, hcur] at hm2
      rw [List.mem_append] at hm2
      cases hm2 with
      | inl hin => exact hr2 m2 hin
      | inr hin =>
        rw [List.mem_singleton] at hin
        subst hin
        exact (cleanup_unlocked m hwfm).1
    · intro m2 hm2
      simp only [unmountCleanup, hcur] at hm2
      cases hm2

/-- C10 witness: teardown with a live `Locked` manager releases the scroll
lock. -/
theorem unmount_releases_lock_witness :
    worldWF
      { current := some ⟨LockState.Locked, false⟩, retired := [],
        isLoading := true, dialogOpen := true, error := "",
        hasBookingData := true, invocations := 1 } = true ∧
    allUnlockedB
      (unmountCleanup
        { current := some ⟨LockState.Locked, false⟩, retired := [],
          isLoading := true, dialogOpen := true, error := "",
          hasBookingData := true, invocations := 1 }) = true :=
  ⟨by decide,
    (unmount_releases_lock
      { current := some ⟨LockState.Locked, false⟩, retired := [],
        isLoading := true, dialogOpen := true, error := "",
        hasBookingData := true, invocations := 1 }
      ⟨LockState.Locked, false⟩ (by decide) rfl).2.2.2.2⟩
